import Mathlib

/-!
Verification development for the `fl-dwd-warnings` service (`src/main.py`).

The core pipeline (AOI parsing, bounding-box extraction, result cache,
upstream client, property normalizer, response assembler) is shallowly
embedded below.  Python `dict`s are modelled as association lists with
unique keys and first-match lookup; JSON numbers (Python int/float) are
modelled as rationals; timestamps (`time.time()`) are rationals; fallible
code returns `Except String`.  Environment-dependent pieces (the HTTP
transport, `json.loads` on string payloads, and the timezone-dependent
`_format_dt_local(_parse_iso_dt(.))` composition) are passed in as explicit
function parameters of the model.
-/

/-- A JSON value, as produced by `json.loads` / consumed by `jsonify`.
Python `dict` insertion order is kept by using a field list. -/
inductive Json where
  | null : Json
  | bool (b : Bool) : Json
  | num (q : ℚ) : Json
  | str (s : String) : Json
  | arr (elems : List Json) : Json
  | obj (fields : List (String × Json)) : Json

/-- Python truthiness (`bool(v)`) on JSON values. -/
def pyTruthy : Json → Bool
  | .null => false
  | .bool b => b
  | .num q => decide (q ≠ 0)
  | .str s => decide (s ≠ "")
  | .arr l => !l.isEmpty
  | .obj l => !l.isEmpty

/-- First-match association lookup; models `d.get(k)` / `d[k]` on a Python
dict (whose keys are unique, so first match is the only match). -/
def assocGet {α : Type} : List (String × α) → String → Option α
  | [], _ => none
  | (k, v) :: rest, key => if k = key then some v else assocGet rest key

/-- Models `k in d` on a Python dict. -/
def hasKey {α : Type} (l : List (String × α)) (key : String) : Bool :=
  (assocGet l key).isSome

/-- `j.get(k)` where `j` is a JSON object (and `none` otherwise). -/
def jsonGet (j : Json) (key : String) : Option Json :=
  match j with
  | .obj fields => assocGet fields key
  | _ => none

/-- Models the Python test `v not in (None, "")` used by the normalizer:
the value is neither `None` nor the empty string. -/
def nonEmptyVal : Json → Bool
  | .null => false
  | .str "" => false
  | _ => true

/-- Python `s[:n]` on a string. -/
def pyTake (n : Nat) (s : String) : String := (s.toList.take n).asString

-- -------------------------------
-- Config (src/main.py lines 44-60); defaults of the env-based settings.
-- -------------------------------

def DWD_WFS_BASE : String := "https://maps.dwd.de/geoserver/dwd/ows"

def DWD_WFS_VERSION : String := "2.0.0"

/-- The fixed target layer (`# FIX: nur dieser Layer`, line 51). -/
def DWD_TYPENAME : String := "dwd:Warnungen_Gemeinden_vereinigt"

/-- The env-configurable scalar settings the core branches on:
`CACHE_TTL_SECONDS` (default 20), `MAX_CACHE_ITEMS` (default 200) and
`MAX_FEATURES` (default 800). -/
structure Cfg where
  ttl : ℚ
  maxItems : ℕ
  maxFeaturesDefault : ℤ

/-- The default configuration. -/
def defaultCfg : Cfg := { ttl := 20, maxItems := 200, maxFeaturesDefault := 800 }

-- -------------------------------
-- GeoJSON AOI Extractor (src/main.py `_parse_geojson`,
-- `_extract_single_feature_geojson`)
-- -------------------------------

/-- `_parse_geojson` (lines 123-133).  String payloads are stripped and
handed to `json.loads`, which is environment code modelled by the
`loads` parameter. -/
def parseGeojson (loads : String → Except String Json) (payload : Json) :
    Except String Json :=
  match payload with
  | .null => .error "Kein GeoJSON übergeben."
  | .str s =>
    let s := s.trim
    if s = "" then .error "Leerer GeoJSON-String."
    else loads s
  | .obj fields => .ok (.obj fields)
  | _ => .error "GeoJSON muss ein JSON-Objekt oder String sein."

/-- `gj.get("properties") or {}` — the properties of the wrapped feature. -/
def propsOrEmpty (fields : List (String × Json)) : Json :=
  let p := (assocGet fields "properties").getD .null
  if pyTruthy p then p else .obj []

/-- `_extract_single_feature_geojson` (lines 136-163): reduce a Feature, a
one-element FeatureCollection, or a bare Polygon/MultiPolygon to a single
Feature.  A non-object input would raise an `AttributeError` in Python
(only reachable through a string payload via `json.loads`); a truthy
non-list `features` value would raise a `TypeError`; both are modelled as
errors. -/
def extractSingleFeature (gj : Json) : Except String Json :=
  match gj with
  | .obj fields =>
    match assocGet fields "type" with
    | some (.str "Feature") =>
      let geom := (assocGet fields "geometry").getD .null
      if pyTruthy geom then
        .ok (.obj [("type", .str "Feature"), ("properties", propsOrEmpty fields),
                   ("geometry", geom)])
      else .error "Feature ohne geometry."
    | some (.str "FeatureCollection") =>
      let fv := (assocGet fields "features").getD .null
      let fv := if pyTruthy fv then fv else .arr []
      match fv with
      | .arr [f] =>
        match f with
        | .obj ffs =>
          match assocGet ffs "type" with
          | some (.str "Feature") =>
            let geom := (assocGet ffs "geometry").getD .null
            if pyTruthy geom then
              .ok (.obj [("type", .str "Feature"), ("properties", propsOrEmpty ffs),
                         ("geometry", geom)])
            else .error "Feature ohne geometry."
          | _ => .error "FeatureCollection enthält kein gültiges Feature."
        | _ => .error "FeatureCollection enthält kein gültiges Feature."
      | .arr _ => .error "FeatureCollection muss genau 1 Feature enthalten."
      | _ => .error "TypeError: features ist keine Liste."
    | some (.str "Polygon") =>
      .ok (.obj [("type", .str "Feature"), ("properties", .obj []),
                 ("geometry", .obj fields)])
    | some (.str "MultiPolygon") =>
      .ok (.obj [("type", .str "Feature"), ("properties", .obj []),
                 ("geometry", .obj fields)])
    | _ =>
      .error "Nicht unterstützter GeoJSON-Typ. Erlaubt: Feature, FeatureCollection(1), Polygon, MultiPolygon."
  | _ => .error "AttributeError: GeoJSON ist kein Objekt."

-- -------------------------------
-- Bounding Box Calculator (src/main.py `_iter_coords_from_geom`,
-- `_geojson_feature_to_bbox_crs84`)
-- -------------------------------

/-- `isinstance(v, (int, float))` together with `float(v)`: Python `bool`
is a subtype of `int`, so `True`/`False` count as coordinates 1/0. -/
def pyNumCoord : Json → Option ℚ
  | .num q => some q
  | .bool b => some (if b then 1 else 0)
  | _ => none

/-- The `len(obj) == 2 and all(isinstance(v, (int, float)) for v in obj)`
test of `walk` in `_iter_coords_from_geom`: a two-element all-numeric
list, yielded as one coordinate pair. -/
def asPair : List Json → Option (ℚ × ℚ)
  | [a, b] =>
    match pyNumCoord a, pyNumCoord b with
    | some x, some y => some (x, y)
    | _, _ => none
  | _ => none

mutual

/-- The inner `walk` of `_iter_coords_from_geom` (lines 172-178): a
two-element all-numeric list yields exactly one pair; any other list is
recursed into element-wise; non-lists yield nothing. -/
def walk : Json → List (ℚ × ℚ)
  | .arr xs =>
    match asPair xs with
    | some p => [p]
    | none => walkList xs
  | _ => []

/-- `for it in obj: yield from walk(it)`. -/
def walkList : List Json → List (ℚ × ℚ)
  | [] => []
  | x :: xs => walk x ++ walkList xs

end

/-- `_iter_coords_from_geom` (lines 166-180) on the fields of a geometry
object: nothing when `type` is falsy or `coordinates` is absent/`None`. -/
def iterCoordsFromGeom (gfs : List (String × Json)) : List (ℚ × ℚ) :=
  let gtype := (assocGet gfs "type").getD .null
  if pyTruthy gtype then
    match assocGet gfs "coordinates" with
    | none => []
    | some .null => []
    | some c => walk c
  else []

/-- `_geojson_feature_to_bbox_crs84` (lines 183-200). -/
def geojsonFeatureToBbox (feature : Json) : Except String (ℚ × ℚ × ℚ × ℚ) :=
  match jsonGet feature "geometry" with
  | some (.obj gfs) =>
    if hasKey gfs "type" then
      match assocGet gfs "type" with
      | some (.str "Polygon") => bboxOfCoords (iterCoordsFromGeom gfs)
      | some (.str "MultiPolygon") => bboxOfCoords (iterCoordsFromGeom gfs)
      | _ => .error "AOI muss Polygon oder MultiPolygon sein."
    else .error "Ungültiges Feature: keine Geometry."
  | _ => .error "Ungültiges Feature: keine Geometry."
where
  /- `min(xs), min(ys), max(xs), max(ys)` over the collected pairs, failing
  on an empty collection (lines 190-200). -/
  bboxOfCoords : List (ℚ × ℚ) → Except String (ℚ × ℚ × ℚ × ℚ)
    | [] => .error "AOI enthält keine Koordinaten."
    | p :: rest =>
      .ok (rest.foldl (fun a q => min a q.1) p.1,
           rest.foldl (fun a q => min a q.2) p.2,
           rest.foldl (fun a q => max a q.1) p.1,
           rest.foldl (fun a q => max a q.2) p.2)

-- -------------------------------
-- Property Normalizer (src/main.py `_pick`,
-- `_normalize_feature_properties`)
-- -------------------------------

/-- `_pick` (lines 203-207): first candidate key that is present with a
value that is neither `None` nor the empty string. -/
def pick (props : List (String × Json)) : List String → Option Json
  | [] => none
  | k :: rest =>
    match assocGet props k with
    | some v => if nonEmptyVal v then some v else pick props rest
    | none => pick props rest

/-- The identifier pass-through whitelist of
`_normalize_feature_properties` (line 231). -/
def idKeys : List String :=
  ["WARNCELLID", "warncellid", "ID", "id", "EC_II", "EC_GROUP", "EVENT",
   "STATUS", "MSGTYPE"]

/-- `_normalize_feature_properties` (lines 210-235).  The composition
`_format_dt_local(_parse_iso_dt(v))` is timezone-database and
`LOCAL_TZ`-dependent environment code, modelled by the `fmt` parameter
(`_parse_iso_dt(None)` is `None`, hence the `Option.bind`). -/
def normalizeFeatureProperties (fmt : Json → Option String)
    (props : List (String × Json)) : List (String × Json) :=
  let headline := pick props
    ["HEADLINE", "headline", "Headline", "EVENT", "event", "DESCRIPTION", "description"]
  let expiresRaw := pick props
    ["EXPIRES", "expires", "Expires", "GUELTIG_BIS", "gueltig_bis", "VALID_UNTIL", "valid_until"]
  let onsetRaw := pick props ["ONSET", "onset", "Onset", "EFFECTIVE", "effective"]
  let severity := pick props ["SEVERITY", "severity", "WARNSTUFE", "warnstufe", "LEVEL", "level"]
  let area := pick props ["AREADESC", "areadesc", "NAME", "name"]
  [("kurztext", headline.getD .null),
   ("gueltig_bis", expiresRaw.getD .null),
   ("gueltig_bis_local", ((expiresRaw.bind fmt).map Json.str).getD .null),
   ("gueltig_ab", onsetRaw.getD .null),
   ("gueltig_ab_local", ((onsetRaw.bind fmt).map Json.str).getD .null),
   ("severity", severity.getD .null),
   ("gebiet", area.getD .null)]
  ++ idKeys.filterMap fun k =>
      match assocGet props k with
      | some v => if nonEmptyVal v then some (k, v) else none
      | none => none

-- -------------------------------
-- Upstream Client (src/main.py `_http_get`, `_http_get_json`)
-- -------------------------------

/-- What one upstream HTTP exchange yields to `_http_get_json`: the status
code, the `Content-Type` header, the body text (`r.text or ""`), and the
outcome of `r.json()` (`none` on a JSON parse failure). -/
structure UpstreamResp where
  status : ℕ
  contentType : String
  text : String
  json : Option Json

/-- `requests`' `r.ok`: status code below 400. -/
def respOk (r : UpstreamResp) : Bool := r.status < 400

/-- `_http_get_json` (lines 250-266), applied to the response of the GET.
The `{e}` exception text interpolated into the parse-error message is
environment detail and is omitted from the modelled message. -/
def httpGetJson (r : UpstreamResp) : Except String Json :=
  if respOk r then
    match r.json with
    | none =>
      .error ("DWD WFS JSON Parse Error. Content-Type=" ++ r.contentType.toLower
        ++ ". Auszug: " ++ pyTake 300 r.text)
    | some (.obj fields) => .ok (.obj fields)
    | some _ => .error "DWD WFS lieferte kein JSON-Objekt."
  else
    .error ("DWD WFS Upstream HTTP " ++ toString r.status ++ ". Auszug: "
      ++ pyTake 900 r.text)

-- -------------------------------
-- Result Cache (src/main.py `CacheEntry`, `_feature_cache_cleanup`,
-- `_feature_cache_key`, `_fetch_dwd_warnings_geojson`)
-- -------------------------------

/-- `CacheEntry` (lines 273-276). -/
structure CacheEntry where
  ts : ℚ
  data : Json

/-- The module-level `_feature_cache` dict, as an insertion-ordered
association list with unique keys. -/
abbrev Cache := List (String × CacheEntry)

/-- The TTL sweep of `_feature_cache_cleanup` (lines 284-287): entries
with `now - ts > CACHE_TTL_SECONDS` are popped, the rest keep their
order. -/
def aliveEntries (cfg : Cfg) (now : ℚ) (c : Cache) : Cache :=
  c.filter fun kv => decide (now - kv.2.ts ≤ cfg.ttl)

/-- Stable insertion for the descending-by-timestamp sort: an element is
placed before the first strictly older entry, matching Python's stable
`sorted(..., key=lambda kv: kv[1].ts, reverse=True)`. -/
def insertTsDesc (x : String × CacheEntry) : Cache → Cache
  | [] => [x]
  | y :: ys => if x.2.ts ≥ y.2.ts then x :: y :: ys else y :: insertTsDesc x ys

/-- Stable sort by insertion timestamp, newest first (line 290). -/
def sortTsDesc : Cache → Cache
  | [] => []
  | x :: xs => insertTsDesc x (sortTsDesc xs)

/-- `_feature_cache_cleanup` (lines 282-295): TTL sweep, then capacity
eviction keeping only the `MAX_CACHE_ITEMS` newest-timestamped entries.
The pure model has no internal exceptions, so the swallowing
`try/except pass` wrapper is the identity here. -/
def featureCacheCleanup (cfg : Cfg) (now : ℚ) (c : Cache) : Cache :=
  let alive := aliveEntries cfg now c
  if alive.length > cfg.maxItems then (sortTsDesc alive).take cfg.maxItems
  else alive

/-- Round-half-to-even of a rational to an integer, as used by Python's
fixed-precision float formatting. -/
def roundHalfEven (q : ℚ) : ℤ :=
  let f := ⌊q⌋
  let frac := q - f
  if frac < 1 / 2 then f
  else if 1 / 2 < frac then f + 1
  else if f % 2 = 0 then f else f + 1

/-- Zero-pad a digit string on the left to 6 characters. -/
def padSix (s : String) : String :=
  (List.replicate (6 - s.length) '0').asString ++ s

/-- Python `f"{x:.6f}"` under the rational embedding of the float: the
value rounded half-to-even at six fractional digits.  (Python renders a
negative zero for tiny negative inputs; the model renders plain zero --
no cache-key claim distinguishes the two.) -/
def fmtSixF (x : ℚ) : String :=
  let n := roundHalfEven (x * 1000000)
  let sign := if n < 0 then "-" else ""
  let a := n.natAbs
  sign ++ toString (a / 1000000) ++ "." ++ padSix (toString (a % 1000000))

/-- `_feature_cache_key` (lines 298-299): fixed layer name, bbox at six
fractional digits, and the max-feature count. -/
def featureCacheKey (bbox : ℚ × ℚ × ℚ × ℚ) (maxFeatures : ℤ) : String :=
  DWD_TYPENAME ++ "|" ++ fmtSixF bbox.1 ++ "," ++ fmtSixF bbox.2.1 ++ ","
    ++ fmtSixF bbox.2.2.1 ++ "," ++ fmtSixF bbox.2.2.2 ++ "|" ++ toString maxFeatures

/-- Stands for Python's `str()` on the embedded float (only ever
concatenated into the `bbox` query parameter, never inspected). -/
def ratStr (q : ℚ) : String := toString q

/-- The `params` dict of the GetFeature request (lines 318-327): the
layer is the fixed `DWD_TYPENAME`. -/
def wfsParams (bbox : ℚ × ℚ × ℚ × ℚ) (maxFeatures : ℤ) : List (String × String) :=
  [("service", "WFS"),
   ("version", DWD_WFS_VERSION),
   ("request", "GetFeature"),
   ("typeNames", DWD_TYPENAME),
   ("outputFormat", "application/json"),
   ("srsName", "CRS:84"),
   ("bbox", ratStr bbox.1 ++ "," ++ ratStr bbox.2.1 ++ "," ++ ratStr bbox.2.2.1
      ++ "," ++ ratStr bbox.2.2.2 ++ ",CRS:84"),
   ("count", toString maxFeatures)]

/-- `d[k] = v` on a Python dict: replace in place if the key exists,
append otherwise. -/
def setKey : Cache → String → CacheEntry → Cache
  | [], k, e => [(k, e)]
  | (k', e') :: rest, k, e =>
    if k' = k then (k, e) :: rest else (k', e') :: setKey rest k e

/-- The test `js.get("type") != "FeatureCollection"` (line 331), as its
positive counterpart. -/
def isFeatureCollection (js : Json) : Bool :=
  match jsonGet js "type" with
  | some (.str "FeatureCollection") => true
  | _ => false

/-- The cache-miss tail of `_fetch_dwd_warnings_geojson` (lines 315-335):
build the params, perform the GET (modelled by `send`), require a
`FeatureCollection`, store it under the key with timestamp `tNow`. -/
def fetchUpstream (tNow : ℚ) (send : List (String × String) → UpstreamResp)
    (c : Cache) (bbox : ℚ × ℚ × ℚ × ℚ) (maxFeatures : ℤ) :
    Except String (Json × Cache) := do
  let js ← httpGetJson (send (wfsParams bbox maxFeatures))
  if isFeatureCollection js then
    .ok (js, setKey c (featureCacheKey bbox maxFeatures) ⟨tNow, js⟩)
  else .error "DWD WFS lieferte keine GeoJSON FeatureCollection."

/-- `_fetch_dwd_warnings_geojson` (lines 302-335).  The function reads
the clock twice (once inside `_feature_cache_cleanup`, once after), hence
the two time parameters `tClean` and `tNow`. -/
def fetchDwdWarnings (cfg : Cfg) (tClean tNow : ℚ)
    (send : List (String × String) → UpstreamResp) (c : Cache)
    (bbox : ℚ × ℚ × ℚ × ℚ) (maxFeatures : ℤ) : Except String (Json × Cache) :=
  let cleaned := featureCacheCleanup cfg tClean c
  match assocGet cleaned (featureCacheKey bbox maxFeatures) with
  | some hit =>
    if tNow - hit.ts ≤ cfg.ttl then .ok (hit.data, cleaned)
    else fetchUpstream tNow send cleaned bbox maxFeatures
  | none => fetchUpstream tNow send cleaned bbox maxFeatures

-- -------------------------------
-- Response Assembler (src/main.py `_build_featurecollection`)
-- -------------------------------

/-- The skip test of the assembler loop (line 347): entries that are not
dicts with `type == "Feature"` are skipped. -/
def isKeptFeature : Json → Bool
  | .obj fs =>
    match assocGet fs "type" with
    | some (.str "Feature") => true
    | _ => false
  | _ => false

/-- `raw_fc.get("features") or []` (line 342), the iterated entries.  A
truthy `features` value that is a dict or a string would be iterated as
keys/characters in Python; every such element fails the skip test, so it
is modelled as the empty entry list. -/
def rawFeatures (rawFc : Json) : List Json :=
  let fv := (jsonGet rawFc "features").getD .null
  let fv := if pyTruthy fv then fv else .arr []
  match fv with
  | .arr xs => xs
  | _ => []

/-- The entries of the upstream collection that survive the skip test. -/
def keptFeatures (rawFc : Json) : List Json :=
  (rawFeatures rawFc).filter isKeptFeature

/-- `props_raw` of one entry (lines 350-352): its `properties` when that
is a dict, the empty dict otherwise. -/
def featureRawProps (f : Json) : List (String × Json) :=
  match jsonGet f "properties" with
  | some (.obj ps) => ps
  | _ => []

/-- One output feature (lines 354-364): original geometry, normalized
properties plus the raw mapping under `properties_raw`. -/
def outFeature (fmt : Json → Option String) (f : Json) : Json :=
  let propsRaw := featureRawProps f
  let norm := normalizeFeatureProperties fmt propsRaw
  .obj [("type", .str "Feature"),
        ("geometry", (jsonGet f "geometry").getD .null),
        ("properties", .obj (norm ++ [("properties_raw", .obj propsRaw)]))]

/-- Python `a or b`. -/
def pyOr (a b : Json) : Json := if pyTruthy a then a else b

/-- One summary record (lines 366-372). -/
def summaryEntry (fmt : Json → Option String) (f : Json) : Json :=
  let norm := normalizeFeatureProperties fmt (featureRawProps f)
  .obj [("kurztext", (assocGet norm "kurztext").getD .null),
        ("gueltig_ab_local",
         pyOr ((assocGet norm "gueltig_ab_local").getD .null)
           ((assocGet norm "gueltig_ab").getD .null)),
        ("gueltig_bis_local",
         pyOr ((assocGet norm "gueltig_bis_local").getD .null)
           ((assocGet norm "gueltig_bis").getD .null)),
        ("severity", (assocGet norm "severity").getD .null),
        ("gebiet", (assocGet norm "gebiet").getD .null)]

/-- `_build_featurecollection` (lines 338-386).  `genAt` stands for the
wall-clock `datetime.now(timezone.utc).isoformat()` string. -/
def buildFeatureCollection (fmt : Json → Option String) (genAt : String)
    (rawFc : Json) (bbox : ℚ × ℚ × ℚ × ℚ) : Json :=
  let kept := keptFeatures rawFc
  .obj [("type", .str "FeatureCollection"),
        ("features", .arr (kept.map (outFeature fmt))),
        ("meta", .obj
          [("source", .str "DWD WFS"),
           ("endpoint", .str DWD_WFS_BASE),
           ("typeName", .str DWD_TYPENAME),
           ("bbox", .arr [.num bbox.1, .num bbox.2.1, .num bbox.2.2.1, .num bbox.2.2.2]),
           ("count", .num kept.length),
           ("generated_at", .str genAt),
           ("summary", .arr (kept.map (summaryEntry fmt)))])]

-- -------------------------------
-- Routes / API (src/main.py `api_warnings`)
-- -------------------------------

/-- Line 399: `body.get("geojson") if "geojson" in body else (body.get("aoi")
if "aoi" in body else body)`.  The handler is modelled for JSON-object
request bodies (`body` is the field list); for those, the initial
`request.get_json(force=True) or {}` is the identity. -/
def selectPayload (body : List (String × Json)) : Json :=
  if hasKey body "geojson" then (assocGet body "geojson").getD .null
  else if hasKey body "aoi" then (assocGet body "aoi").getD .null
  else .obj body

/-- Python `int(v)` on a JSON value: floats truncate toward zero, bools
map to 0/1, decimal strings parse, anything else raises.  (Python's
string form also allows surrounding whitespace and underscores; no claim
exercises those.) -/
def pyInt : Json → Option ℤ
  | .num q => some (Int.tdiv q.num q.den)
  | .bool b => some (if b then 1 else 0)
  | .str s => s.toInt?
  | _ => none

/-- Lines 405-407: `max_n = int(body.get("max", MAX_FEATURES));
max_n = max(1, min(max_n, 2000))`.  An unconvertible value raises
(`TypeError`/`ValueError`), surfaced as a 400; the exact Python message
is environment detail. -/
def effectiveMax (maxFeaturesDefault : ℤ) (body : List (String × Json)) :
    Except String ℤ :=
  match pyInt ((assocGet body "max").getD (.num (maxFeaturesDefault : ℚ))) with
  | some i => .ok (max 1 (min i 2000))
  | none => .error "int(): ungültiger max-Wert."

/-- The environment one `api_warnings` call runs in: the modelled external
collaborators (`json.loads`, the datetime formatter, the HTTP transport as
a function of the query parameters, the generation timestamp), the
configuration, the shared cache, and the two clock reads of
`_fetch_dwd_warnings_geojson`. -/
structure Env where
  loads : String → Except String Json
  fmt : Json → Option String
  send : List (String × String) → UpstreamResp
  genAt : String
  cfg : Cfg
  cache : Cache
  tClean : ℚ
  tNow : ℚ

/-- The happy path of `api_warnings` (lines 393-412), returning the
response body and the cache left behind. -/
def apiWarningsCore (env : Env) (body : List (String × Json)) :
    Except String (Json × Cache) := do
  let payload := selectPayload body
  let gj ← parseGeojson env.loads payload
  let feature ← extractSingleFeature gj
  let bbox ← geojsonFeatureToBbox feature
  let maxN ← effectiveMax env.cfg.maxFeaturesDefault body
  let (rawFc, cache) ← fetchDwdWarnings env.cfg env.tClean env.tNow env.send env.cache bbox maxN
  .ok (buildFeatureCollection env.fmt env.genAt rawFc bbox, cache)

/-- `api_warnings` (lines 393-415): any failure is caught and converted to
HTTP 400 with `{"error": str(e)}`. -/
def apiWarnings (env : Env) (body : List (String × Json)) : ℕ × Json :=
  match apiWarningsCore env body with
  | .ok (fc, _) => (200, fc)
  | .error e => (400, .obj [("error", .str e)])

-- -------------------------------
-- Shared lemmas about the dict model
-- -------------------------------

theorem assocGet_cons_ne {α : Type} {k key : String} (h : k ≠ key) (v : α)
    (l : List (String × α)) : assocGet ((k, v) :: l) key = assocGet l key := by
  simp [assocGet, h]

theorem assocGet_eq_none_iff {α : Type} {l : List (String × α)} {key : String} :
    assocGet l key = none ↔ ∀ p ∈ l, p.1 ≠ key := by
  induction l with
  | nil => simp [assocGet]
  | cons p rest ih =>
    obtain ⟨k, v⟩ := p
    by_cases h : k = key
    · subst h
      simp [assocGet]
    · simp [assocGet, h, ih]

theorem assocGet_append_left_none {α : Type} {l₁ : List (String × α)}
    (l₂ : List (String × α)) {key : String} (h : assocGet l₁ key = none) :
    assocGet (l₁ ++ l₂) key = assocGet l₂ key := by
  induction l₁ with
  | nil => simp
  | cons p rest ih =>
    obtain ⟨k, v⟩ := p
    by_cases hk : k = key
    · subst hk
      simp [assocGet] at h
    · rw [assocGet_cons_ne hk] at h
      simpa [assocGet, hk] using ih h

theorem setKey_of_none {c : Cache} {k : String} (e : CacheEntry)
    (h : assocGet c k = none) : setKey c k e = c ++ [(k, e)] := by
  induction c with
  | nil => simp [setKey]
  | cons p rest ih =>
    obtain ⟨k', v⟩ := p
    by_cases hk : k' = k
    · subst hk
      simp [assocGet] at h
    · rw [assocGet_cons_ne hk] at h
      simp [setKey, hk, ih h]

theorem setKey_length_le (c : Cache) (k : String) (e : CacheEntry) :
    (setKey c k e).length ≤ c.length + 1 := by
  induction c with
  | nil => simp [setKey]
  | cons p rest ih =>
    by_cases hk : p.1 = k
    · simp [setKey, hk]
    · simp only [setKey, hk, if_false, List.length_cons]
      omega

-- -------------------------------
-- C7: normalizer first-match precedence
-- -------------------------------

/-- The acceptance test of one `_pick` candidate: present and neither
`None` nor the empty string. -/
def pickAccepts (props : List (String × Json)) (k : String) : Bool :=
  match assocGet props k with
  | some v => nonEmptyVal v
  | none => false

/-- C7: for every raw property mapping and every candidate list, `_pick`
returns exactly the value of the first candidate key whose value is
present and neither null nor the empty string; in particular `HEADLINE`
beats `headline`, and an empty-string `HEADLINE` falls through to
`headline` in the normalizer's `kurztext` field. -/
theorem claim_c7_pick_first_nonempty :
    (∀ (props : List (String × Json)) (keys : List String),
      pick props keys = (keys.find? (pickAccepts props)).bind (assocGet props))
    ∧ (∀ fmt : Json → Option String,
        assocGet (normalizeFeatureProperties fmt
          [("HEADLINE", .str "Amtliche WARNUNG"), ("headline", .str "anders")])
          "kurztext" = some (.str "Amtliche WARNUNG")
        ∧ assocGet (normalizeFeatureProperties fmt
            [("HEADLINE", .str ""), ("headline", .str "anders")])
            "kurztext" = some (.str "anders")) := by
  constructor
  · intro props keys
    induction keys with
    | nil => rfl
    | cons k rest ih =>
      by_cases h : pickAccepts props k = true
      · have hfind : List.find? (pickAccepts props) (k :: rest) = some k :=
          List.find?_cons_of_pos _ h
        rw [hfind]
        unfold pickAccepts at h
        unfold pick
        cases hv : assocGet props k with
        | none => rw [hv] at h; simp at h
        | some v =>
          rw [hv] at h
          have h2 : nonEmptyVal v = true := h
          simp [pick, h2, hv]
      · have hfind : List.find? (pickAccepts props) (k :: rest)
            = List.find? (pickAccepts props) rest :=
          List.find?_cons_of_neg _ (by simpa using h)
        rw [hfind]
        unfold pickAccepts at h
        unfold pick
        cases hv : assocGet props k with
        | none => exact ih
        | some v =>
          rw [hv] at h
          simp only [Bool.not_eq_true] at h
          simp [h, ih]
  · intro fmt
    exact ⟨rfl, rfl⟩

-- -------------------------------
-- C8: effective feature cap
-- -------------------------------

/-- C8 fails on the code: the handler only reads `max`; a body carrying
only `count` gets the configured default (800), not the clamped `count`
value. -/
theorem claim_c8_counterexample :
    effectiveMax 800 [("count", .num 5)] = .ok 800
    ∧ (Except.ok (800 : ℤ) : Except String ℤ) ≠ .ok 5 := by
  refine ⟨rfl, fun h => ?_⟩
  have := Except.ok.inj h
  omega

/-- C8 amended: the effective cap is `int(body["max"])` clamped to
[1, 2000] (the configured default, likewise clamped, when `max` is
absent); every accepted cap lies in [1, 2000]; `max = 5000` clamps to
2000; a `count` key is ignored (its value never influences the result). -/
theorem claim_c8_amended :
    (∀ (d : ℤ) (body : List (String × Json)) (m : ℤ),
      effectiveMax d body = .ok m → 1 ≤ m ∧ m ≤ 2000)
    ∧ (∀ (d : ℤ) (v w : Json) (rest : List (String × Json)),
        effectiveMax d (("count", v) :: rest) = effectiveMax d (("count", w) :: rest))
    ∧ effectiveMax 800 [("max", .num 5000)] = .ok 2000
    ∧ (∀ d : ℤ, effectiveMax d [] = .ok (max 1 (min d 2000))) := by
  refine ⟨?_, ?_, rfl, ?_⟩
  · intro d body m h
    unfold effectiveMax at h
    cases hp : pyInt ((assocGet body "max").getD (.num (d : ℚ))) with
    | none => rw [hp] at h; exact absurd h (by simp)
    | some i =>
      rw [hp] at h
      simp only [Except.ok.injEq] at h
      subst h
      constructor
      · exact le_max_left 1 _
      · exact max_le (by norm_num) (min_le_right i 2000)
  · intro d v w rest
    unfold effectiveMax
    rw [assocGet_cons_ne (by decide), assocGet_cons_ne (by decide)]
  · intro d
    unfold effectiveMax
    simp only [assocGet, Option.getD_none]
    have : pyInt (.num (d : ℚ)) = some d := by
      simp [pyInt, Rat.num_intCast, Rat.den_intCast, Int.tdiv_one]
    rw [this]

/-- Witness for C8 amended: `max = 5000` yields cap 2000, which lies in
[1, 2000]. -/
theorem claim_c8_amended_witness :
    (1 : ℤ) ≤ 2000 ∧ (2000 : ℤ) ≤ 2000 :=
  claim_c8_amended.1 800 [("max", .num 5000)] 2000 rfl

-- -------------------------------
-- C9: upstream error surfacing
-- -------------------------------

/-- C9: a non-success upstream status makes `_http_get_json` fail with a
message carrying `HTTP <status>` and the body excerpt truncated to at
most 900 characters, and any pipeline failure is surfaced as HTTP 400
with the message under the `error` key. -/
theorem claim_c9_upstream_error :
    (∀ r : UpstreamResp, 400 ≤ r.status →
      httpGetJson r = .error ("DWD WFS Upstream HTTP " ++ toString r.status
        ++ ". Auszug: " ++ pyTake 900 r.text)
      ∧ (pyTake 900 r.text).length ≤ 900)
    ∧ (∀ (env : Env) (body : List (String × Json)) (e : String),
        apiWarningsCore env body = .error e →
        apiWarnings env body = (400, .obj [("error", .str e)])) := by
  constructor
  · intro r h
    have hok : respOk r = false := by
      simp only [respOk, decide_eq_false_iff_not]
      omega
    constructor
    · unfold httpGetJson
      rw [hok]
      simp only [Bool.false_eq_true, if_false]
    · simp only [pyTake]
      calc ((r.text.toList.take 900).asString).length
          = (r.text.toList.take 900).length := rfl
        _ ≤ 900 := List.length_take_le 900 _
  · intro env body e h
    simp [apiWarnings, h]

/-- The upstream response of the C9 witness scenario: HTTP 500 with an
XML error body. -/
def respC9 : UpstreamResp :=
  { status := 500
    contentType := "text/xml"
    text := "<ows:ExceptionReport><ows:Exception>oops</ows:Exception></ows:ExceptionReport>"
    json := none }

/-- A small square AOI polygon for the C9 witness. -/
def polyC9 : Json :=
  .obj [("type", .str "Polygon"),
        ("coordinates", .arr [.arr [.arr [.num 8, .num 50], .arr [.num 9, .num 50],
          .arr [.num 9, .num 51], .arr [.num 8, .num 50]]])]

/-- The environment of the C9 witness: every upstream GET answers with
the HTTP 500 response. -/
def envC9 : Env :=
  { loads := fun _ => .error "loads"
    fmt := fun _ => none
    send := fun _ => respC9
    genAt := "2026-01-01T00:00:00+00:00"
    cfg := defaultCfg
    cache := []
    tClean := 0
    tNow := 0 }

/-- Witness for C9: end-to-end, the HTTP 500 upstream answer yields a 400
response whose `error` message carries `HTTP 500` and the truncated
excerpt. -/
theorem claim_c9_witness :
    httpGetJson respC9 = .error ("DWD WFS Upstream HTTP " ++ toString respC9.status
      ++ ". Auszug: " ++ pyTake 900 respC9.text)
    ∧ (pyTake 900 respC9.text).length ≤ 900
    ∧ apiWarnings envC9 [("geojson", polyC9)]
        = (400, .obj [("error", .str ("DWD WFS Upstream HTTP " ++ toString respC9.status
            ++ ". Auszug: " ++ pyTake 900 respC9.text))]) :=
  ⟨(claim_c9_upstream_error.1 respC9 (by decide)).1,
   (claim_c9_upstream_error.1 respC9 (by decide)).2,
   claim_c9_upstream_error.2 envC9 [("geojson", polyC9)] _ rfl⟩

-- -------------------------------
-- C10: AOI payload selection
-- -------------------------------

/-- C10: a present `geojson` key wins over `aoi` (its value becomes the
payload even when both keys are present), and a `geojson` key holding
`null` fails the request with the invalid-input message instead of
falling back to `aoi` or to the whole body. -/
theorem claim_c10_geojson_precedence :
    (∀ (body : List (String × Json)) (g : Json),
      assocGet body "geojson" = some g → selectPayload body = g)
    ∧ (∀ (env : Env) (body : List (String × Json)),
        assocGet body "geojson" = some .null →
        apiWarnings env body = (400, .obj [("error", .str "Kein GeoJSON übergeben.")])) := by
  constructor
  · intro body g h
    simp [selectPayload, hasKey, h]
  · intro env body h
    have hsel : selectPayload body = .null := by simp [selectPayload, hasKey, h]
    have hcore : apiWarningsCore env body = .error "Kein GeoJSON übergeben." := by
      unfold apiWarningsCore
      rw [hsel]
      rfl
    simp [apiWarnings, hcore]

/-- A valid polygon offered under `aoi` in the C10 witness body (and
nevertheless ignored). -/
def polyC10 : Json :=
  .obj [("type", .str "Polygon"),
        ("coordinates", .arr [.arr [.arr [.num 0, .num 0], .arr [.num 1, .num 0],
          .arr [.num 1, .num 1], .arr [.num 0, .num 0]]])]

/-- An empty upstream feature collection answer, shared shape for witness
environments. -/
def respC10 : UpstreamResp :=
  { status := 200
    contentType := "application/json"
    text := ""
    json := some (.obj [("type", .str "FeatureCollection"), ("features", .arr [])]) }

/-- An arbitrary concrete environment for the C10 witness. -/
def envC10 : Env :=
  { loads := fun _ => .error "loads"
    fmt := fun _ => none
    send := fun _ => respC10
    genAt := "2026-01-01T00:00:00+00:00"
    cfg := defaultCfg
    cache := []
    tClean := 0
    tNow := 0 }

/-- Witness for C10: with both keys present and `geojson` null, the
payload is the null and the request fails instead of using `aoi`. -/
theorem claim_c10_witness :
    selectPayload [("geojson", .null), ("aoi", polyC10)] = .null
    ∧ apiWarnings envC10 [("geojson", .null), ("aoi", polyC10)]
        = (400, .obj [("error", .str "Kein GeoJSON übergeben.")]) :=
  ⟨claim_c10_geojson_precedence.1 [("geojson", .null), ("aoi", polyC10)] .null rfl,
   claim_c10_geojson_precedence.2 envC10 [("geojson", .null), ("aoi", polyC10)] rfl⟩

-- -------------------------------
-- C2: raw properties in the output
-- -------------------------------

theorem assocGet_normalize_properties_raw (fmt : Json → Option String)
    (props : List (String × Json)) :
    assocGet (normalizeFeatureProperties fmt props) "properties_raw" = none := by
  rw [assocGet_eq_none_iff]
  intro p hp
  unfold normalizeFeatureProperties at hp
  simp only [List.mem_append, List.mem_cons, List.not_mem_nil, or_false] at hp
  rcases hp with hfix | hpass
  · rcases hfix with rfl | rfl | rfl | rfl | rfl | rfl | rfl <;> simp
  · rw [List.mem_filterMap] at hpass
    obtain ⟨k, hk, hF⟩ := hpass
    have hk1 : p.1 = k := by
      cases hv : assocGet props k with
      | none => rw [hv] at hF; simp at hF
      | some v =>
        rw [hv] at hF
        by_cases hne : nonEmptyVal v = true
        · simp only [hne, if_true] at hF
          cases hF
          rfl
        · simp only [Bool.not_eq_true] at hne
          simp [hne] at hF
    rw [hk1]
    simp only [idKeys, List.mem_cons, List.not_mem_nil, or_false] at hk
    rcases hk with rfl | rfl | rfl | rfl | rfl | rfl | rfl | rfl | rfl <;> simp

/-- C2 amended: every feature of the assembled response carries the
original raw property mapping under `properties_raw`, unconditionally —
the handler reads no `raw` flag. -/
theorem claim_c2_amended :
    ∀ (fmt : Json → Option String) (genAt : String) (rawFc : Json)
      (bbox : ℚ × ℚ × ℚ × ℚ) (feats : List Json),
      jsonGet (buildFeatureCollection fmt genAt rawFc bbox) "features" = some (.arr feats) →
      ∀ f ∈ feats, ∃ g ∈ keptFeatures rawFc, f = outFeature fmt g ∧
        ∃ ps, jsonGet f "properties" = some (.obj ps) ∧
          assocGet ps "properties_raw" = some (.obj (featureRawProps g)) := by
  intro fmt genAt rawFc bbox feats hfeats f hf
  have hfeq : feats = (keptFeatures rawFc).map (outFeature fmt) := by
    have hcomp : jsonGet (buildFeatureCollection fmt genAt rawFc bbox) "features"
        = some (.arr ((keptFeatures rawFc).map (outFeature fmt))) := rfl
    have h2 := hcomp.symm.trans hfeats
    exact (Json.arr.inj (Option.some.inj h2)).symm
  subst hfeq
  rw [List.mem_map] at hf
  obtain ⟨g, hg, hfg⟩ := hf
  refine ⟨g, hg, hfg.symm, ?_⟩
  subst hfg
  refine ⟨normalizeFeatureProperties fmt (featureRawProps g)
    ++ [("properties_raw", .obj (featureRawProps g))], ?_, ?_⟩
  · rfl
  · rw [assocGet_append_left_none _ (assocGet_normalize_properties_raw fmt _)]
    simp [assocGet]

/-- The AOI polygon of the C2 scenario. -/
def polyC2 : Json :=
  .obj [("type", .str "Polygon"),
        ("coordinates", .arr [.arr [.arr [.num 8, .num 50], .arr [.num 9, .num 50],
          .arr [.num 9, .num 51], .arr [.num 8, .num 50]]])]

/-- One upstream warning feature with a raw property mapping. -/
def featC2 : Json :=
  .obj [("type", .str "Feature"),
        ("properties", .obj [("HEADLINE", .str "Amtliche WARNUNG vor STURMBOEEN")]),
        ("geometry", polyC2)]

/-- The upstream feature collection of the C2 scenario. -/
def fcC2 : Json :=
  .obj [("type", .str "FeatureCollection"), ("features", .arr [featC2])]

/-- The datetime formatter of the C2 scenario (no parsed forms). -/
def fmtC2 : Json → Option String := fun _ => none

/-- The environment of the C2 scenario. -/
def envC2 : Env :=
  { loads := fun _ => .error "loads"
    fmt := fmtC2
    send := fun _ => { status := 200, contentType := "application/json",
                       text := "", json := some fcC2 }
    genAt := "2026-01-01T00:00:00+00:00"
    cfg := defaultCfg
    cache := []
    tClean := 0
    tNow := 0 }

/-- The first feature of a response feature collection. -/
def firstFeature (fc : Json) : Json :=
  match jsonGet fc "features" with
  | some (.arr (f :: _)) => f
  | _ => .null

/-- Whether a feature's properties object carries a `properties_raw` key. -/
def propsHaveRaw (f : Json) : Bool :=
  match jsonGet f "properties" with
  | some (.obj ps) => hasKey ps "properties_raw"
  | _ => false

/-- C2 fails on the code: a request without any `raw` flag still receives
output features whose properties carry the raw mapping under
`properties_raw` (inclusion is unconditional, not opt-in). -/
theorem claim_c2_counterexample :
    hasKey [("geojson", polyC2)] "raw" = false
    ∧ (apiWarnings envC2 [("geojson", polyC2)]).1 = 200
    ∧ propsHaveRaw (firstFeature (apiWarnings envC2 [("geojson", polyC2)]).2) = true :=
  ⟨rfl, rfl, rfl⟩

/-- Witness for C2 amended, at the concrete C2 scenario collection. -/
theorem claim_c2_amended_witness :
    ∃ g ∈ keptFeatures fcC2, outFeature fmtC2 featC2 = outFeature fmtC2 g ∧
      ∃ ps, jsonGet (outFeature fmtC2 featC2) "properties" = some (.obj ps) ∧
        assocGet ps "properties_raw" = some (.obj (featureRawProps g)) :=
  claim_c2_amended fmtC2 "2026-01-01T00:00:00+00:00" fcC2 (8, 50, 9, 51)
    [outFeature fmtC2 featC2] rfl (outFeature fmtC2 featC2)
    (List.mem_singleton.mpr rfl)

-- -------------------------------
-- C3: bounding box and 3-element positions
-- -------------------------------

/-- The geometry field list of a Polygon whose vertices are `[x, y, z]`
triples. -/
def gfsTriC3 : List (String × Json) :=
  [("type", .str "Polygon"),
   ("coordinates", .arr [.arr [.arr [.num 1, .num 2, .num 3],
     .arr [.num 4, .num 5, .num 6], .arr [.num 7, .num 8, .num 9]]])]

/-- The same geometry with the third components removed. -/
def gfsPairC3 : List (String × Json) :=
  [("type", .str "Polygon"),
   ("coordinates", .arr [.arr [.arr [.num 1, .num 2],
     .arr [.num 4, .num 5], .arr [.num 7, .num 8]]])]

/-- The triple-vertex feature of the C3 scenario. -/
def featTriC3 : Json :=
  .obj [("type", .str "Feature"), ("properties", .obj []), ("geometry", .obj gfsTriC3)]

/-- The pair-vertex feature of the C3 scenario. -/
def featPairC3 : Json :=
  .obj [("type", .str "Feature"), ("properties", .obj []), ("geometry", .obj gfsPairC3)]

/-- C3 fails on the code: a Polygon whose vertices are `[x, y, z]` triples
does not yield the bounding box of the truncated pairs — the walk skips
3-element positions entirely, so the computation fails with the
empty-geometry error while the 2-element variant succeeds. -/
theorem claim_c3_counterexample :
    geojsonFeatureToBbox featTriC3 = .error "AOI enthält keine Koordinaten."
    ∧ geojsonFeatureToBbox featPairC3 = .ok (1, 2, 7, 8)
    ∧ geojsonFeatureToBbox featTriC3 ≠ geojsonFeatureToBbox featPairC3 := by
  refine ⟨rfl, rfl, ?_⟩
  intro h
  have h1 : geojsonFeatureToBbox featTriC3
      = .error "AOI enthält keine Koordinaten." := rfl
  have h2 : geojsonFeatureToBbox featPairC3 = .ok (1, 2, 7, 8) := rfl
  rw [h1, h2] at h
  exact Except.noConfusion h

/-- C3 amended: the coordinate walk collects exactly the 2-element
all-numeric arrays; an `[x, y, z]` triple contributes nothing (its
numeric elements are recursed into, not truncated), and the computation
fails with the empty-geometry error precisely when the walk collects no
2-element pairs. -/
theorem claim_c3_amended :
    (∀ x y z : ℚ, walk (.arr [.num x, .num y, .num z]) = [])
    ∧ (∀ x y : ℚ, walk (.arr [.num x, .num y]) = [(x, y)])
    ∧ (∀ gfs : List (String × Json), assocGet gfs "type" = some (.str "Polygon") →
        (geojsonFeatureToBbox (.obj [("type", .str "Feature"), ("properties", .obj []),
            ("geometry", .obj gfs)]) = .error "AOI enthält keine Koordinaten."
          ↔ iterCoordsFromGeom gfs = [])) := by
  refine ⟨fun x y z => rfl, fun x y => rfl, ?_⟩
  intro gfs h
  have hk : hasKey gfs "type" = true := by simp [hasKey, h]
  have hjget : jsonGet (.obj [("type", .str "Feature"), ("properties", .obj []),
      ("geometry", .obj gfs)]) "geometry" = some (.obj gfs) := rfl
  have hbb : geojsonFeatureToBbox (.obj [("type", .str "Feature"), ("properties", .obj []),
      ("geometry", .obj gfs)]) = geojsonFeatureToBbox.bboxOfCoords (iterCoordsFromGeom gfs) := by
    unfold geojsonFeatureToBbox
    rw [hjget]
    simp only [hk, h, if_true]
  rw [hbb]
  cases hl : iterCoordsFromGeom gfs with
  | nil => simp [geojsonFeatureToBbox.bboxOfCoords]
  | cons p rest =>
    simp only [geojsonFeatureToBbox.bboxOfCoords]
    constructor
    · intro hc
      exact Except.noConfusion hc
    · intro hc
      exact List.noConfusion hc

/-- Witness for C3 amended: the triple-vertex Polygon geometry collects
no pairs, hence the bbox computation fails with the empty-geometry
error. -/
theorem claim_c3_amended_witness :
    geojsonFeatureToBbox (.obj [("type", .str "Feature"), ("properties", .obj []),
      ("geometry", .obj gfsTriC3)]) = .error "AOI enthält keine Koordinaten." :=
  (claim_c3_amended.2.2 gfsTriC3 rfl).mpr rfl

-- -------------------------------
-- C1: the target layer is fixed
-- -------------------------------

/-- Responses depend on the body only through the selected payload and the
`max` lookup, which is all the handler reads from it. -/
theorem apiWarnings_congr (env : Env) {b₁ b₂ : List (String × Json)}
    (hsel : selectPayload b₁ = selectPayload b₂)
    (hmax : assocGet b₁ "max" = assocGet b₂ "max") :
    apiWarnings env b₁ = apiWarnings env b₂ := by
  have hEff : effectiveMax env.cfg.maxFeaturesDefault b₁
      = effectiveMax env.cfg.maxFeaturesDefault b₂ := by
    unfold effectiveMax
    rw [hmax]
  unfold apiWarnings apiWarningsCore
  rw [hsel, hEff]

/-- C1 amended: a `typeName`/`typename` body key does not override the
target layer.  The upstream `typeNames` parameter and the layer component
of the cache key are always the fixed `DWD_TYPENAME`, and adding a
`typeName`/`typename` key of any value to a request leaves the response
unchanged. -/
theorem claim_c1_amended :
    (∀ (bbox : ℚ × ℚ × ℚ × ℚ) (m : ℤ),
      assocGet (wfsParams bbox m) "typeNames" = some DWD_TYPENAME)
    ∧ (∀ (bbox : ℚ × ℚ × ℚ × ℚ) (m : ℤ), ∃ rest,
        featureCacheKey bbox m = DWD_TYPENAME ++ ("|" ++ rest))
    ∧ (∀ (env : Env) (g v : Json) (rest : List (String × Json)),
        apiWarnings env (("geojson", g) :: ("typeName", v) :: rest)
          = apiWarnings env (("geojson", g) :: rest)
        ∧ apiWarnings env (("geojson", g) :: ("typename", v) :: rest)
          = apiWarnings env (("geojson", g) :: rest)) := by
  refine ⟨fun bbox m => rfl, ?_, ?_⟩
  · intro bbox m
    refine ⟨fmtSixF bbox.1 ++ "," ++ fmtSixF bbox.2.1 ++ "," ++ fmtSixF bbox.2.2.1
      ++ "," ++ fmtSixF bbox.2.2.2 ++ "|" ++ toString m, ?_⟩
    simp [featureCacheKey, String.append_assoc]
  · intro env g v rest
    constructor
    · refine apiWarnings_congr env ?_ ?_
      · simp [selectPayload, hasKey, assocGet]
      · have e1 : assocGet (("geojson", g) :: ("typeName", v) :: rest) "max"
            = assocGet rest "max" := by
          rw [assocGet_cons_ne (by decide), assocGet_cons_ne (by decide)]
        have e2 : assocGet (("geojson", g) :: rest) "max" = assocGet rest "max" := by
          rw [assocGet_cons_ne (by decide)]
        exact e1.trans e2.symm
    · refine apiWarnings_congr env ?_ ?_
      · simp [selectPayload, hasKey, assocGet]
      · have e1 : assocGet (("geojson", g) :: ("typename", v) :: rest) "max"
            = assocGet rest "max" := by
          rw [assocGet_cons_ne (by decide), assocGet_cons_ne (by decide)]
        have e2 : assocGet (("geojson", g) :: rest) "max" = assocGet rest "max" := by
          rw [assocGet_cons_ne (by decide)]
        exact e1.trans e2.symm

/-- The AOI polygon of the C1 scenario. -/
def polyC1 : Json :=
  .obj [("type", .str "Polygon"),
        ("coordinates", .arr [.arr [.arr [.num 8, .num 50], .arr [.num 9, .num 50],
          .arr [.num 9, .num 51], .arr [.num 8, .num 50]]])]

/-- The upstream answer the fixed layer receives in the C1 scenario. -/
def respPlainC1 : UpstreamResp :=
  { status := 200
    contentType := "application/json"
    text := ""
    json := some (.obj [("type", .str "FeatureCollection"), ("features", .arr [])]) }

/-- The upstream answer a `typeNames=user:layer` request would receive in
the C1 scenario (observably different from the fixed layer's answer). -/
def respMarkedC1 : UpstreamResp :=
  { status := 200
    contentType := "application/json"
    text := ""
    json := some (.obj [("type", .str "FeatureCollection"),
      ("features", .arr [.obj [("type", .str "Feature"),
        ("properties", .obj [("HEADLINE", .str "MARKED")]),
        ("geometry", .null)]])]) }

/-- The C1 environment: the upstream transport answers by the layer it was
asked for, so a layer override would be observable in the response. -/
def envC1 : Env :=
  { loads := fun _ => .error "loads"
    fmt := fun _ => none
    send := fun ps =>
      if assocGet ps "typeNames" = some "user:layer" then respMarkedC1 else respPlainC1
    genAt := "2026-01-01T00:00:00+00:00"
    cfg := defaultCfg
    cache := []
    tClean := 0
    tNow := 0 }

/-- C1 fails on the code: with `typeName = "user:layer"` in the body, the
upstream request still carries the fixed `DWD_TYPENAME` (the marked
response for `user:layer` is never received, and the response equals that
of a request without the override). -/
theorem claim_c1_counterexample :
    assocGet (wfsParams (8, 50, 9, 51) 800) "typeNames" = some DWD_TYPENAME
    ∧ some DWD_TYPENAME ≠ some "user:layer"
    ∧ (apiWarnings envC1 [("geojson", polyC1), ("typeName", .str "user:layer")]).1 = 200
    ∧ apiWarnings envC1 [("geojson", polyC1), ("typeName", .str "user:layer")]
        = apiWarnings envC1 [("geojson", polyC1)] :=
  ⟨rfl, by decide, rfl, rfl⟩

-- -------------------------------
-- C4: response counts, summary mirroring, skipping
-- -------------------------------

/-- C4: the assembled response satisfies `meta.count = len(features)` and
`len(summary) = len(features)`; features and summary are the images of
the same kept entries in the same order; and an entry that is not a
well-formed Feature is silently skipped — removing it from the upstream
collection leaves the response unchanged. -/
theorem claim_c4_response_invariants :
    (∀ (fmt : Json → Option String) (genAt : String) (rawFc : Json)
       (bbox : ℚ × ℚ × ℚ × ℚ), ∃ feats summ meta n,
      jsonGet (buildFeatureCollection fmt genAt rawFc bbox) "features" = some (.arr feats)
      ∧ jsonGet (buildFeatureCollection fmt genAt rawFc bbox) "meta" = some meta
      ∧ jsonGet meta "count" = some (.num n)
      ∧ jsonGet meta "summary" = some (.arr summ)
      ∧ n = (feats.length : ℚ)
      ∧ summ.length = feats.length
      ∧ feats = (keptFeatures rawFc).map (outFeature fmt)
      ∧ summ = (keptFeatures rawFc).map (summaryEntry fmt))
    ∧ (∀ (fmt : Json → Option String) (genAt : String) (bbox : ℚ × ℚ × ℚ × ℚ)
       (pre post : List Json) (e : Json) (extra : List (String × Json)),
        isKeptFeature e = false →
        buildFeatureCollection fmt genAt (.obj (("features", .arr (pre ++ e :: post)) :: extra)) bbox
          = buildFeatureCollection fmt genAt (.obj (("features", .arr (pre ++ post)) :: extra)) bbox) := by
  constructor
  · intro fmt genAt rawFc bbox
    refine ⟨(keptFeatures rawFc).map (outFeature fmt),
      (keptFeatures rawFc).map (summaryEntry fmt), _, ((keptFeatures rawFc).length : ℚ),
      rfl, rfl, rfl, rfl, ?_, ?_, rfl, rfl⟩
    · rw [List.length_map]
    · rw [List.length_map, List.length_map]
  · intro fmt genAt bbox pre post e extra he
    have hkept : keptFeatures (.obj (("features", .arr (pre ++ e :: post)) :: extra))
        = keptFeatures (.obj (("features", .arr (pre ++ post)) :: extra)) := by
      unfold keptFeatures rawFeatures
      have h1 : jsonGet (.obj (("features", .arr (pre ++ e :: post)) :: extra)) "features"
          = some (.arr (pre ++ e :: post)) := rfl
      have h2 : jsonGet (.obj (("features", .arr (pre ++ post)) :: extra)) "features"
          = some (.arr (pre ++ post)) := rfl
      rw [h1, h2]
      simp only [Option.getD_some]
      have hfilter : (pre ++ e :: post).filter isKeptFeature
          = (pre ++ post).filter isKeptFeature := by
        rw [List.filter_append, List.filter_append,
            List.filter_cons_of_neg (by simp [he])]
      have ht1 : pyTruthy (.arr (pre ++ e :: post)) = true := by simp [pyTruthy]
      rw [ht1]
      by_cases hpp : pre ++ post = []
      · rw [hpp] at hfilter ⊢
        simpa [pyTruthy] using hfilter
      · have ht2 : pyTruthy (.arr (pre ++ post)) = true := by
          simp [pyTruthy, hpp]
        rw [ht2]
        simpa using hfilter
    unfold buildFeatureCollection
    rw [hkept]

/-- The upstream collection of the C4 witness: one well-formed feature and
one malformed entry. -/
def featC4 : Json :=
  .obj [("type", .str "Feature"),
        ("properties", .obj [("SEVERITY", .str "Minor")]),
        ("geometry", .null)]

/-- A malformed upstream entry (its `type` is not `Feature`). -/
def badC4 : Json := .obj [("type", .str "NotAFeature")]

/-- Witness for C4: the malformed entry is skipped — the response equals
the one assembled without it. -/
theorem claim_c4_witness :
    buildFeatureCollection (fun _ => none) "2026-01-01T00:00:00+00:00"
      (.obj [("features", .arr ([featC4] ++ badC4 :: []))]) (0, 0, 1, 1)
    = buildFeatureCollection (fun _ => none) "2026-01-01T00:00:00+00:00"
      (.obj [("features", .arr ([featC4] ++ []))]) (0, 0, 1, 1) :=
  claim_c4_response_invariants.2 (fun _ => none) "2026-01-01T00:00:00+00:00"
    (0, 0, 1, 1) [featC4] [] badC4 [] rfl

-- -------------------------------
-- C5: cache round-trip within / beyond the TTL
-- -------------------------------

theorem assocGet_filter_none {l : List (String × CacheEntry)}
    {key : String} (p : String × CacheEntry → Bool)
    (h : assocGet l key = none) : assocGet (l.filter p) key = none := by
  rw [assocGet_eq_none_iff] at h ⊢
  intro q hq
  exact h q (List.mem_filter.mp hq).1

theorem cleanup_no_eviction (cfg : Cfg) (now : ℚ) (c : Cache)
    (h : (aliveEntries cfg now c).length ≤ cfg.maxItems) :
    featureCacheCleanup cfg now c = aliveEntries cfg now c := by
  unfold featureCacheCleanup
  rw [if_neg (by omega)]

/-- A fetch whose key misses the swept cache takes the upstream path. -/
theorem fetch_miss (cfg : Cfg) (tClean tNow : ℚ)
    (send : List (String × String) → UpstreamResp) (c : Cache)
    (bbox : ℚ × ℚ × ℚ × ℚ) (m : ℤ)
    (h : assocGet (featureCacheCleanup cfg tClean c) (featureCacheKey bbox m) = none) :
    fetchDwdWarnings cfg tClean tNow send c bbox m
      = fetchUpstream tNow send (featureCacheCleanup cfg tClean c) bbox m := by
  unfold fetchDwdWarnings
  simp only [h]

/-- A fetch whose key hits the swept cache with a fresh entry returns the
entry's data and leaves the swept cache in place. -/
theorem fetch_hit (cfg : Cfg) (tClean tNow : ℚ)
    (send : List (String × String) → UpstreamResp) (c : Cache)
    (bbox : ℚ × ℚ × ℚ × ℚ) (m : ℤ) (e : CacheEntry)
    (h : assocGet (featureCacheCleanup cfg tClean c) (featureCacheKey bbox m) = some e)
    (hts : tNow - e.ts ≤ cfg.ttl) :
    fetchDwdWarnings cfg tClean tNow send c bbox m
      = .ok (e.data, featureCacheCleanup cfg tClean c) := by
  unfold fetchDwdWarnings
  simp only [h]
  rw [if_pos hts]

/-- C5: once a fetch has stored a collection under a key, a fetch with
identical parameters while the entry is at most TTL old returns exactly
the stored content, and a fetch once the entry is older than the TTL does
not return it — it runs the upstream path on the swept cache. -/
theorem claim_c5_cache_roundtrip
    (cfg : Cfg) (send send2 : List (String × String) → UpstreamResp)
    (c : Cache) (bbox : ℚ × ℚ × ℚ × ℚ) (m : ℤ) (t0 t1 t2 : ℚ) (fc : Json) (c1 : Cache)
    (hmiss : assocGet (featureCacheCleanup cfg t0 c) (featureCacheKey bbox m) = none)
    (hstore : fetchDwdWarnings cfg t0 t0 send c bbox m = .ok (fc, c1))
    (hcap : c1.length ≤ cfg.maxItems)
    (hfresh : t1 - t0 ≤ cfg.ttl)
    (hstale : cfg.ttl < t2 - t0) :
    fetchDwdWarnings cfg t1 t1 send2 c1 bbox m
      = .ok (fc, featureCacheCleanup cfg t1 c1)
    ∧ fetchDwdWarnings cfg t2 t2 send2 c1 bbox m
      = fetchUpstream t2 send2 (featureCacheCleanup cfg t2 c1) bbox m := by
  have hstore' : fetchUpstream t0 send (featureCacheCleanup cfg t0 c) bbox m
      = .ok (fc, c1) :=
    (fetch_miss cfg t0 t0 send c bbox m hmiss).symm.trans hstore
  have hc1 : c1 = featureCacheCleanup cfg t0 c
      ++ [(featureCacheKey bbox m, ⟨t0, fc⟩)] := by
    unfold fetchUpstream at hstore'
    cases hjs : httpGetJson (send (wfsParams bbox m)) with
    | error e =>
      rw [hjs] at hstore'
      exact Except.noConfusion hstore'
    | ok js =>
      rw [hjs] at hstore'
      have h3 : (if isFeatureCollection js = true then
          Except.ok (js, setKey (featureCacheCleanup cfg t0 c)
            (featureCacheKey bbox m) ⟨t0, js⟩)
        else (Except.error "DWD WFS lieferte keine GeoJSON FeatureCollection."
          : Except String (Json × Cache))) = .ok (fc, c1) := hstore'
      cases hfc : isFeatureCollection js with
      | false =>
        rw [hfc, if_neg (by simp)] at h3
        exact Except.noConfusion h3
      | true =>
        rw [hfc, if_pos rfl] at h3
        have h4 := Except.ok.inj h3
        have hjs_fc : js = fc := congrArg Prod.fst h4
        have hset := congrArg Prod.snd h4
        simp only at hset
        rw [← hset, hjs_fc]
        exact setKey_of_none _ hmiss
  constructor
  · -- fresh retrieval: hit
    have halive : aliveEntries cfg t1 c1
        = aliveEntries cfg t1 (featureCacheCleanup cfg t0 c)
          ++ [(featureCacheKey bbox m, ⟨t0, fc⟩)] := by
      rw [hc1]
      unfold aliveEntries
      rw [List.filter_append]
      simp only [List.filter_cons, List.filter_nil, decide_eq_true hfresh, if_true]
    have hlen : (aliveEntries cfg t1 c1).length ≤ cfg.maxItems :=
      le_trans (List.length_filter_le _ _) hcap
    have hclean1 : featureCacheCleanup cfg t1 c1 = aliveEntries cfg t1 c1 :=
      cleanup_no_eviction cfg t1 c1 hlen
    have hnone1 : assocGet (aliveEntries cfg t1 (featureCacheCleanup cfg t0 c))
        (featureCacheKey bbox m) = none := assocGet_filter_none _ hmiss
    have hget : assocGet (featureCacheCleanup cfg t1 c1) (featureCacheKey bbox m)
        = some ⟨t0, fc⟩ := by
      rw [hclean1, halive, assocGet_append_left_none _ hnone1]
      simp [assocGet]
    exact fetch_hit cfg t1 t1 send2 c1 bbox m ⟨t0, fc⟩ hget hfresh
  · -- stale retrieval: upstream path
    have halive2 : aliveEntries cfg t2 c1
        = aliveEntries cfg t2 (featureCacheCleanup cfg t0 c) := by
      rw [hc1]
      unfold aliveEntries
      rw [List.filter_append]
      simp only [List.filter_cons, List.filter_nil,
        decide_eq_false (not_le.mpr hstale), Bool.false_eq_true, if_false,
        List.append_nil]
    have hlen2 : (aliveEntries cfg t2 c1).length ≤ cfg.maxItems :=
      le_trans (List.length_filter_le _ _) hcap
    have hclean2 : featureCacheCleanup cfg t2 c1 = aliveEntries cfg t2 c1 :=
      cleanup_no_eviction cfg t2 c1 hlen2
    have hget2 : assocGet (featureCacheCleanup cfg t2 c1) (featureCacheKey bbox m)
        = none := by
      rw [hclean2, halive2]
      exact assocGet_filter_none _ hmiss
    exact fetch_miss cfg t2 t2 send2 c1 bbox m hget2

/-- The upstream collection of the C5 witness scenario. -/
def fcC5 : Json := .obj [("type", .str "FeatureCollection"), ("features", .arr [])]

/-- The C5 transport: every GET answers with the collection. -/
def sendC5 : List (String × String) → UpstreamResp := fun _ =>
  { status := 200, contentType := "application/json", text := "", json := some fcC5 }

/-- The cache state after the storing fetch of the C5 witness scenario. -/
def cacheC5 : Cache := [(featureCacheKey (0, 0, 1, 1) 800, ⟨0, fcC5⟩)]

/-- Witness for C5: a fetch at t=0 stores the collection; the identical
fetch at t=10 (within the 20s TTL) returns it, the identical fetch at
t=30 (beyond the TTL) goes upstream. -/
theorem claim_c5_witness :
    fetchDwdWarnings defaultCfg 10 10 sendC5 cacheC5 (0, 0, 1, 1) 800
      = .ok (fcC5, featureCacheCleanup defaultCfg 10 cacheC5)
    ∧ fetchDwdWarnings defaultCfg 30 30 sendC5 cacheC5 (0, 0, 1, 1) 800
      = fetchUpstream 30 sendC5 (featureCacheCleanup defaultCfg 30 cacheC5) (0, 0, 1, 1) 800 :=
  claim_c5_cache_roundtrip defaultCfg sendC5 sendC5 [] (0, 0, 1, 1) 800 0 10 30 fcC5 cacheC5
    rfl rfl (by decide) (by norm_num [defaultCfg]) (by norm_num [defaultCfg])

-- -------------------------------
-- C6: capacity bound and eviction order
-- -------------------------------

theorem cleanup_length_le (cfg : Cfg) (now : ℚ) (c : Cache) :
    (featureCacheCleanup cfg now c).length ≤ cfg.maxItems := by
  unfold featureCacheCleanup
  by_cases h : (aliveEntries cfg now c).length > cfg.maxItems
  · rw [if_pos h]
    exact List.length_take_le cfg.maxItems _
  · rw [if_neg h]
    omega

/-- A stale hit falls through to the upstream path. -/
theorem fetch_stale (cfg : Cfg) (tClean tNow : ℚ)
    (send : List (String × String) → UpstreamResp) (c : Cache)
    (bbox : ℚ × ℚ × ℚ × ℚ) (m : ℤ) (e : CacheEntry)
    (h : assocGet (featureCacheCleanup cfg tClean c) (featureCacheKey bbox m) = some e)
    (hts : ¬ (tNow - e.ts ≤ cfg.ttl)) :
    fetchDwdWarnings cfg tClean tNow send c bbox m
      = fetchUpstream tNow send (featureCacheCleanup cfg tClean c) bbox m := by
  unfold fetchDwdWarnings
  simp only [h]
  rw [if_neg hts]

/-- The upstream path grows the cache it was given by at most one entry. -/
theorem fetchUpstream_length (tNow : ℚ)
    (send : List (String × String) → UpstreamResp) (c : Cache)
    (bbox : ℚ × ℚ × ℚ × ℚ) (m : ℤ) (fc : Json) (c2 : Cache)
    (h : fetchUpstream tNow send c bbox m = .ok (fc, c2)) :
    c2.length ≤ c.length + 1 := by
  unfold fetchUpstream at h
  cases hjs : httpGetJson (send (wfsParams bbox m)) with
  | error e =>
    rw [hjs] at h
    exact Except.noConfusion h
  | ok js =>
    rw [hjs] at h
    have h3 : (if isFeatureCollection js = true then
        Except.ok (js, setKey c (featureCacheKey bbox m) ⟨tNow, js⟩)
      else (Except.error "DWD WFS lieferte keine GeoJSON FeatureCollection."
        : Except String (Json × Cache))) = .ok (fc, c2) := h
    cases hfc : isFeatureCollection js with
    | false =>
      rw [hfc, if_neg (by simp)] at h3
      exact Except.noConfusion h3
    | true =>
      rw [hfc, if_pos rfl] at h3
      have h4 := congrArg Prod.snd (Except.ok.inj h3)
      simp only at h4
      rw [← h4]
      exact setKey_length_le c _ _

theorem mem_insertTsDesc {x y : String × CacheEntry} {l : Cache} :
    y ∈ insertTsDesc x l ↔ y = x ∨ y ∈ l := by
  induction l with
  | nil => simp [insertTsDesc]
  | cons z zs ih =>
    unfold insertTsDesc
    by_cases h : x.2.ts ≥ z.2.ts
    · rw [if_pos h]
      simp [List.mem_cons]
    · rw [if_neg h]
      simp only [List.mem_cons, ih]
      tauto

theorem mem_sortTsDesc {y : String × CacheEntry} {l : Cache} :
    y ∈ sortTsDesc l ↔ y ∈ l := by
  induction l with
  | nil => simp [sortTsDesc]
  | cons z zs ih =>
    unfold sortTsDesc
    rw [mem_insertTsDesc, ih, List.mem_cons]

theorem pairwise_insertTsDesc {x : String × CacheEntry} {l : Cache}
    (hl : List.Pairwise (fun a b => b.2.ts ≤ a.2.ts) l) :
    List.Pairwise (fun a b => b.2.ts ≤ a.2.ts) (insertTsDesc x l) := by
  induction l with
  | nil => simp [insertTsDesc]
  | cons z zs ih =>
    unfold insertTsDesc
    by_cases h : x.2.ts ≥ z.2.ts
    · rw [if_pos h]
      refine List.Pairwise.cons ?_ hl
      intro b hb
      rcases List.mem_cons.mp hb with rfl | hbz
      · exact h
      · exact le_trans (List.rel_of_pairwise_cons hl hbz) h
    · rw [if_neg h]
      refine List.Pairwise.cons ?_ (ih (List.Pairwise.of_cons hl))
      intro b hb
      rcases mem_insertTsDesc.mp hb with rfl | hbz
      · exact le_of_lt (lt_of_not_ge h)
      · exact List.rel_of_pairwise_cons hl hbz

theorem pairwise_sortTsDesc (l : Cache) :
    List.Pairwise (fun a b => b.2.ts ≤ a.2.ts) (sortTsDesc l) := by
  induction l with
  | nil => simp [sortTsDesc]
  | cons z zs ih => exact pairwise_insertTsDesc ih

/-- C6 amended: the cleanup run at the start of every cache access leaves
at most `MAX_CACHE_ITEMS` entries and, when it evicts, every dropped
entry is at most as new as every kept entry (oldest-timestamped first);
but the store performed on a cache miss happens after the cleanup, so a
successful fetch can leave up to `MAX_CACHE_ITEMS + 1` entries behind. -/
theorem claim_c6_amended :
    (∀ (cfg : Cfg) (now : ℚ) (c : Cache),
      (featureCacheCleanup cfg now c).length ≤ cfg.maxItems)
    ∧ (∀ (cfg : Cfg) (tc tn : ℚ) (send : List (String × String) → UpstreamResp)
        (c : Cache) (bbox : ℚ × ℚ × ℚ × ℚ) (m : ℤ) (fc : Json) (c2 : Cache),
        fetchDwdWarnings cfg tc tn send c bbox m = .ok (fc, c2) →
        c2.length ≤ cfg.maxItems + 1)
    ∧ (∀ (cfg : Cfg) (now : ℚ) (c : Cache) (x y : String × CacheEntry),
        x ∈ featureCacheCleanup cfg now c →
        y ∈ aliveEntries cfg now c →
        y ∉ featureCacheCleanup cfg now c →
        y.2.ts ≤ x.2.ts) := by
  refine ⟨cleanup_length_le, ?_, ?_⟩
  · intro cfg tc tn send c bbox m fc c2 h
    have hclean := cleanup_length_le cfg tc c
    cases hA : assocGet (featureCacheCleanup cfg tc c) (featureCacheKey bbox m) with
    | some e =>
      by_cases hts : tn - e.ts ≤ cfg.ttl
      · rw [fetch_hit cfg tc tn send c bbox m e hA hts] at h
        have h4 := congrArg Prod.snd (Except.ok.inj h)
        simp only at h4
        rw [← h4]
        omega
      · rw [fetch_stale cfg tc tn send c bbox m e hA hts] at h
        have := fetchUpstream_length tn send _ bbox m fc c2 h
        omega
    | none =>
      rw [fetch_miss cfg tc tn send c bbox m hA] at h
      have := fetchUpstream_length tn send _ bbox m fc c2 h
      omega
  · intro cfg now c x y hx hyAlive hyNot
    unfold featureCacheCleanup at hx hyNot
    by_cases hgt : (aliveEntries cfg now c).length > cfg.maxItems
    · rw [if_pos hgt] at hx hyNot
      have hy_sort : y ∈ sortTsDesc (aliveEntries cfg now c) := mem_sortTsDesc.mpr hyAlive
      rw [← List.take_append_drop cfg.maxItems (sortTsDesc (aliveEntries cfg now c))] at hy_sort
      rcases List.mem_append.mp hy_sort with hyT | hyD
      · exact absurd hyT hyNot
      · have hpw := pairwise_sortTsDesc (aliveEntries cfg now c)
        rw [← List.take_append_drop cfg.maxItems (sortTsDesc (aliveEntries cfg now c))] at hpw
        exact (List.pairwise_append.mp hpw).2.2 x hx y hyD
    · rw [if_neg hgt] at hx hyNot
      exact absurd hyAlive hyNot

/-- The C6 configuration: capacity 1, long TTL. -/
def cfgC6 : Cfg := { ttl := 1000, maxItems := 1, maxFeaturesDefault := 800 }

/-- The upstream collection of the C6 scenario. -/
def fcC6 : Json := .obj [("type", .str "FeatureCollection"), ("features", .arr [])]

/-- The C6 transport. -/
def sendC6 : List (String × String) → UpstreamResp := fun _ =>
  { status := 200, contentType := "application/json", text := "", json := some fcC6 }

/-- The cache after the first C6 fetch. -/
def cacheC6 : Cache := [(featureCacheKey (0, 0, 1, 1) 800, ⟨0, fcC6⟩)]

/-- The cache after the second C6 fetch: one entry beyond capacity. -/
def cacheC6b : Cache :=
  [(featureCacheKey (0, 0, 1, 1) 800, ⟨0, fcC6⟩),
   (featureCacheKey (0, 0, 1, 1) 900, ⟨1, fcC6⟩)]

theorem keyC6_ne : featureCacheKey (0, 0, 1, 1) 800 ≠ featureCacheKey (0, 0, 1, 1) 900 := by
  intro h
  unfold featureCacheKey at h
  have hd := congrArg String.data h
  rw [String.data_append, String.data_append] at hd
  have hcanc := List.append_cancel_left hd
  have hne : ¬ (toString (800 : ℤ)).data = (toString (900 : ℤ)).data := by decide
  exact hne hcanc

/-- C6 fails on the code: with capacity 1, the store performed on the
second (distinct-key) cache miss leaves 2 entries — the cache exceeds the
configured maximum item count right after that cache operation. -/
theorem claim_c6_counterexample :
    fetchDwdWarnings cfgC6 0 0 sendC6 [] (0, 0, 1, 1) 800 = .ok (fcC6, cacheC6)
    ∧ fetchDwdWarnings cfgC6 1 1 sendC6 cacheC6 (0, 0, 1, 1) 900 = .ok (fcC6, cacheC6b)
    ∧ cfgC6.maxItems < cacheC6b.length := by
  refine ⟨rfl, ?_, by decide⟩
  have hclean : featureCacheCleanup cfgC6 1 cacheC6 = cacheC6 := by
    unfold featureCacheCleanup
    have halive : aliveEntries cfgC6 1 cacheC6 = cacheC6 := by
      unfold aliveEntries cacheC6
      simp only [List.filter_cons, List.filter_nil]
      rw [decide_eq_true (show (1 : ℚ) - (CacheEntry.mk 0 fcC6).ts ≤ cfgC6.ttl by
        norm_num [cfgC6])]
      simp
    rw [halive]
    rw [if_neg (by decide)]
  have hmiss2 : assocGet (featureCacheCleanup cfgC6 1 cacheC6)
      (featureCacheKey (0, 0, 1, 1) 900) = none := by
    rw [hclean]
    exact (assocGet_cons_ne keyC6_ne _ _).trans rfl
  rw [fetch_miss cfgC6 1 1 sendC6 cacheC6 (0, 0, 1, 1) 900 hmiss2, hclean]
  have hup : httpGetJson (sendC6 (wfsParams (0, 0, 1, 1) 900)) = .ok fcC6 := rfl
  unfold fetchUpstream
  rw [hup]
  show (if isFeatureCollection fcC6 = true then
      Except.ok (fcC6, setKey cacheC6 (featureCacheKey (0, 0, 1, 1) 900) ⟨1, fcC6⟩)
    else Except.error "DWD WFS lieferte keine GeoJSON FeatureCollection.")
    = Except.ok (fcC6, cacheC6b)
  have hfcC6 : isFeatureCollection fcC6 = true := rfl
  rw [if_pos hfcC6]
  have hset : setKey cacheC6 (featureCacheKey (0, 0, 1, 1) 900) ⟨1, fcC6⟩ = cacheC6b := by
    show setKey ((featureCacheKey (0, 0, 1, 1) 800, ⟨0, fcC6⟩) :: [])
      (featureCacheKey (0, 0, 1, 1) 900) ⟨1, fcC6⟩ = cacheC6b
    unfold setKey
    rw [if_neg keyC6_ne]
    rfl
  rw [hset]

/-- The two plain-keyed alive entries of the C6 witness scenario. -/
def cW6 : Cache := [("a", ⟨0, fcC6⟩), ("b", ⟨5, fcC6⟩)]

/-- Witness for C6 amended: a successful fetch leaves at most capacity+1
entries, and at an over-capacity cleanup the dropped entry (timestamp 0)
is older than the kept one (timestamp 5). -/
theorem claim_c6_amended_witness :
    cacheC6.length ≤ cfgC6.maxItems + 1
    ∧ ((("a", ⟨0, fcC6⟩) : String × CacheEntry)).2.ts
        ≤ ((("b", ⟨5, fcC6⟩) : String × CacheEntry)).2.ts := by
  have hfetch : fetchDwdWarnings cfgC6 0 0 sendC6 [] (0, 0, 1, 1) 800
      = .ok (fcC6, cacheC6) := rfl
  have halive : aliveEntries cfgC6 5 cW6 = cW6 := by
    unfold aliveEntries cW6
    simp only [List.filter_cons, List.filter_nil]
    rw [decide_eq_true (show (5 : ℚ) - (CacheEntry.mk 0 fcC6).ts ≤ cfgC6.ttl by
        norm_num [cfgC6]),
      decide_eq_true (show (5 : ℚ) - (CacheEntry.mk 5 fcC6).ts ≤ cfgC6.ttl by
        norm_num [cfgC6])]
    simp
  have hsort : sortTsDesc cW6 = [("b", ⟨5, fcC6⟩), ("a", ⟨0, fcC6⟩)] := by
    have h1 : sortTsDesc cW6
        = insertTsDesc ("a", ⟨0, fcC6⟩) [("b", ⟨5, fcC6⟩)] := rfl
    rw [h1]
    unfold insertTsDesc
    rw [if_neg (show ¬ ((("a", (⟨0, fcC6⟩ : CacheEntry)).2.ts
      ≥ (("b", (⟨5, fcC6⟩ : CacheEntry)).2.ts))) by decide)]
    rfl
  have hcleanW : featureCacheCleanup cfgC6 5 cW6 = [("b", ⟨5, fcC6⟩)] := by
    unfold featureCacheCleanup
    rw [halive, if_pos (by decide), hsort]
    rfl
  refine ⟨claim_c6_amended.2.1 cfgC6 0 0 sendC6 [] (0, 0, 1, 1) 800 fcC6 cacheC6 hfetch, ?_⟩
  refine claim_c6_amended.2.2 cfgC6 5 cW6 ("b", ⟨5, fcC6⟩) ("a", ⟨0, fcC6⟩) ?_ ?_ ?_
  · rw [hcleanW]
    exact List.mem_singleton.mpr rfl
  · rw [halive]
    exact List.mem_cons_self _ _
  · rw [hcleanW]
    intro hmem
    have := List.mem_singleton.mp hmem
    have hfst := congrArg Prod.fst this
    simp only at hfst
    exact absurd hfst (by decide)
